import Mathlib

/-
Shallow embedding of src/texture-blend-webgl/texture-blend-webgl.js.

The matrix constructors, the frame-draw trace, the startup scheduler, the
interaction controller and the scene construction are translated directly
from the source.  The Geometry Provider (Shapes.icosahedron and its array
flatteners) is an external collaborator that is not part of the source
tree; its model is marked as such below.

Numeric conventions: the trigonometric matrix constructor is embedded over
the real numbers (sine, cosine and square root are not exactly computable);
everything else in the program is field arithmetic and is embedded over the
rationals, so that concrete runs evaluate by kernel computation.
-/

/-- Embedding of getRotationMatrix from the source: the axis-angle
(Rodrigues) rotation matrix in column-major order.  The angle is given in
degrees and the axis is normalized internally by its Euclidean length. -/
noncomputable def getRotationMatrix (angle x y z : ℝ) : List ℝ :=
  let axisLength := Real.sqrt ((x * x) + (y * y) + (z * z))
  let s := Real.sin (angle * Real.pi / 180)
  let c := Real.cos (angle * Real.pi / 180)
  let oneMinusC := 1 - c
  -- Normalize the axis vector of rotation (x /= axisLength and so on).
  let xn := x / axisLength
  let yn := y / axisLength
  let zn := z / axisLength
  let x2 := xn * xn
  let y2 := yn * yn
  let z2 := zn * zn
  let xy := xn * yn
  let yz := yn * zn
  let xz := xn * zn
  let xs := xn * s
  let ys := yn * s
  let zs := zn * s
  [(x2 * oneMinusC) + c,
   (xy * oneMinusC) + zs,
   (xz * oneMinusC) - ys,
   0,

   (xy * oneMinusC) - zs,
   (y2 * oneMinusC) + c,
   (yz * oneMinusC) + xs,
   0,

   (xz * oneMinusC) + ys,
   (yz * oneMinusC) - xs,
   (z2 * oneMinusC) + c,
   0,

   0,
   0,
   0,
   1]

/-- The 4x4 identity matrix in the same flat column-major representation,
as written out literally in drawObject. -/
noncomputable def identityMatrix4 : List ℝ :=
  [1, 0, 0, 0,
   0, 1, 0, 0,
   0, 0, 1, 0,
   0, 0, 0, 1]

/-- Embedding of getOrthoMatrix from the source: the orthographic
projection matrix in column-major order, over the rationals (the function
is pure field arithmetic). -/
def getOrthoMatrix (left right bottom top zNear zFar : ℚ) : List ℚ :=
  let width := right - left
  let height := top - bottom
  let depth := zFar - zNear
  [2 / width,
   0,
   0,
   0,

   0,
   2 / height,
   0,
   0,

   0,
   0,
   -2 / depth,
   0,

   -(right + left) / width,
   -(top + bottom) / height,
   -(zFar + zNear) / depth,
   1]

/-- Apply a flat column-major 4x4 matrix to a point with homogeneous
coordinate 1, exactly as the GPU multiplies the projection matrix with a
vertex position.  Entry (row r, column c) sits at index 4c + r. -/
def applyHomogeneous (m : List ℚ) (px py pz : ℚ) : ℚ × ℚ × ℚ × ℚ :=
  match m with
  | [m0, m1, m2, m3, m4, m5, m6, m7, m8, m9, m10, m11, m12, m13, m14, m15] =>
      (m0 * px + m4 * py + m8 * pz + m12,
       m1 * px + m5 * py + m9 * pz + m13,
       m2 * px + m6 * py + m10 * pz + m14,
       m3 * px + m7 * py + m11 * pz + m15)
  | _ => (0, 0, 0, 0)

/-- The per-object GPU mode set by drawScene just before each draw call:
depth test, blending, the alpha uniform, and the texture sampler unit. -/
structure DrawModeState where
  depthTest : Bool
  blend : Bool
  alpha : ℚ
  sampler : ℕ
  deriving DecidableEq, Repr

/-- The mode drawScene sets for an opaque object: depth test on, blending
off, alpha uniform 1.0, sampler on texture unit 0. -/
def opaqueMode : DrawModeState :=
  { depthTest := true, blend := false, alpha := 1, sampler := 0 }

/-- The mode drawScene sets for a translucent object: depth test off,
blending on, alpha uniform 0.5, sampler on texture unit 1. -/
def translucentMode : DrawModeState :=
  { depthTest := false, blend := true, alpha := 0.5, sampler := 1 }

/-- The mode drawScene selects for the object at a given index of a list of
a given length: the source computes opaque as index < objectsToDraw.length
divided by 2, with real division. -/
def drawSceneStep (numObjects index : ℕ) : DrawModeState :=
  if (index : ℚ) < (numObjects : ℚ) / 2 then opaqueMode else translucentMode

/-- Embedding of the forEach body of drawScene: the trace of draw calls a
frame issues, one per object in list order, each paired with the GPU mode
state in force when its drawObject call runs. -/
def drawScene {α : Type} (objects : List α) : List (α × DrawModeState) :=
  objects.enum.map (fun p => (p.2, drawSceneStep objects.length p.1))

/-- Events seen by the startup scheduler: the load completion handler of
one texture image firing, or the browser delivering the repaint callback
requested through requestAnimationFrame. -/
inductive SchedulerEvent
  | textureLoaded
  | animationFrame
  deriving DecidableEq, Repr

/-- State of the startup scheduler: the readyTexture counter incremented by
each texture load handler, whether a drawWhenReady callback is currently
scheduled, and how many times drawScene has been called. -/
structure SchedulerState where
  readyTexture : ℕ
  pending : Bool
  framesDrawn : ℕ
  deriving DecidableEq, Repr

/-- State at startup: no texture loaded, the initial
requestAnimationFrame(drawWhenReady) call already issued, no frame drawn. -/
def initialSchedulerState : SchedulerState :=
  { readyTexture := 0, pending := true, framesDrawn := 0 }

/-- Embedding of one invocation of drawWhenReady: if readyTexture equals 2
it calls drawScene and does not reschedule; otherwise it reschedules itself
via requestAnimationFrame and draws nothing. -/
def drawWhenReady (s : SchedulerState) : SchedulerState :=
  if s.readyTexture = 2 then
    { s with framesDrawn := s.framesDrawn + 1, pending := false }
  else
    s

/-- One event of the startup run: a texture load handler increments
readyTexture; a repaint callback runs drawWhenReady when one is scheduled
and is a no-op otherwise. -/
def schedulerStep (s : SchedulerState) : SchedulerEvent → SchedulerState
  | SchedulerEvent.textureLoaded => { s with readyTexture := s.readyTexture + 1 }
  | SchedulerEvent.animationFrame => if s.pending then drawWhenReady s else s

/-- Run the startup scheduler over a sequence of events. -/
def schedulerRun (s : SchedulerState) (events : List SchedulerEvent) : SchedulerState :=
  events.foldl schedulerStep s

/-- The invariant of the startup run: either a drawWhenReady callback is
still scheduled and no frame has been drawn yet, or the single startup
frame has been drawn, no further callback is scheduled, and both textures
had reported ready. -/
def SchedulerInv (s : SchedulerState) : Prop :=
  (s.pending = true ∧ s.framesDrawn = 0) ∨
  (s.pending = false ∧ s.framesDrawn = 1 ∧ 2 ≤ s.readyTexture)

/-- An indexed mesh as delivered by the Geometry Provider: a vertex table
and a list of triangles, each triangle a triple of vertex indices. -/
structure Mesh where
  vertices : List (ℚ × ℚ × ℚ)
  indices : List (ℕ × ℕ × ℕ)

/-- Modelled from the spec: Shapes.icosahedron is supplied by the external
Geometry Provider and is not in the source tree.  It yields the standard
icosahedron mesh of 12 vertices and 20 triangular faces (the classic
construction from three golden-ratio rectangles, with the usual
floating-point vertex coordinates read as rationals). -/
def icosahedron : Mesh :=
  let X : ℚ := 0.525731112119133606
  let Z : ℚ := 0.850650808352039932
  { vertices :=
      [(-X, 0, Z), (X, 0, Z), (-X, 0, -Z), (X, 0, -Z),
       (0, Z, X), (0, Z, -X), (0, -Z, X), (0, -Z, -X),
       (Z, X, 0), (-Z, X, 0), (Z, -X, 0), (-Z, -X, 0)],
    indices :=
      [(1, 4, 0), (4, 9, 0), (4, 5, 9), (8, 5, 4), (1, 8, 4),
       (1, 10, 8), (10, 3, 8), (8, 3, 5), (3, 2, 5), (3, 7, 2),
       (3, 10, 7), (10, 6, 7), (6, 11, 7), (6, 0, 11), (6, 1, 0),
       (10, 1, 6), (11, 0, 9), (2, 11, 9), (5, 2, 9), (11, 2, 7)] }

/-- Modelled from the spec: Shapes.toRawTriangleArray (external Geometry
Provider) flattens an indexed mesh into a raw triangle array, nine
coordinates per triangle, one vertex-coordinate triple per corner.  The
per-vertex normal array of the provider is omitted here: no claim concerns
normal values. -/
def toRawTriangleArray (mesh : Mesh) : List ℚ :=
  mesh.indices.flatMap (fun t =>
    let va := mesh.vertices.getD t.1 (0, 0, 0)
    let vb := mesh.vertices.getD t.2.1 (0, 0, 0)
    let vc := mesh.vertices.getD t.2.2 (0, 0, 0)
    [va.1, va.2.1, va.2.2, vb.1, vb.2.1, vb.2.2, vc.1, vc.2.1, vc.2.2])

/-- Embedding of the JavaScript filter((triangle, index) => p index) calls
used on the icosahedron index list: keep the elements whose list position
satisfies the predicate. -/
def filterByIndex {α : Type} (p : ℕ → Bool) (l : List α) : List α :=
  (l.enum.filter (fun q => p q.1)).map Prod.snd

/-- The gold mesh: an icosahedron keeping only the triangles at positions
where index % 2 is truthy, that is the odd positions. -/
def goldMesh : Mesh :=
  { icosahedron with
    indices := filterByIndex (fun index => index % 2 != 0) icosahedron.indices }

/-- The water mesh: an icosahedron keeping only the triangles at positions
where !(index % 2) is truthy, that is the even positions. -/
def waterMesh : Mesh :=
  { icosahedron with
    indices := filterByIndex (fun index => index % 2 == 0) icosahedron.indices }

/-- An RGB color triple as used for the flat diffuse and specular colors. -/
structure RGB where
  r : ℚ
  g : ℚ
  b : ℚ
  deriving DecidableEq, Repr

/-- The drawing primitive mode stored on each object (gl.TRIANGLES here). -/
inductive PrimitiveMode
  | triangles
  deriving DecidableEq, Repr

/-- A renderable object as built in the objectsToDraw literal: raw vertex
array, flat colors, shininess, texture coordinates and primitive mode.
The optional per-vertex colors and specularColors arrays are absent in the
literal and are filled in by the buffer-setup pass. -/
structure RenderableObject where
  vertices : List ℚ
  color : RGB
  specularColor : RGB
  shininess : ℚ
  textureCoordinates : List ℚ
  mode : PrimitiveMode
  colors : Option (List ℚ) := none
  specularColors : Option (List ℚ) := none
  deriving DecidableEq, Repr

/-- The texture-coordinate array generated inline for each object: a loop
of ten iterations, each pushing the six floats 0,0 1,0 0,1. -/
def demoTextureCoordinates : List ℚ :=
  (List.range 10).flatMap (fun _ => [0, 0, 1, 0, 0, 1])

/-- The first entry of objectsToDraw: the gold mesh with a red flat color. -/
def goldObject : RenderableObject :=
  { vertices := toRawTriangleArray goldMesh,
    color := { r := 1, g := 0, b := 0 },
    specularColor := { r := 1, g := 1, b := 1 },
    shininess := 16,
    textureCoordinates := demoTextureCoordinates,
    mode := PrimitiveMode.triangles }

/-- The second entry of objectsToDraw: the water mesh with a blue flat
color. -/
def waterObject : RenderableObject :=
  { vertices := toRawTriangleArray waterMesh,
    color := { r := 0, g := 0, b := 1 },
    specularColor := { r := 1, g := 1, b := 1 },
    shininess := 16,
    textureCoordinates := demoTextureCoordinates,
    mode := PrimitiveMode.triangles }

/-- The object list of the scene, in source order. -/
def objectsToDraw : List RenderableObject :=
  [goldObject, waterObject]

/-- Number of iterations of the buffer-setup expansion loop
for (i = 0, maxi = len / 3; i < maxi; i += 1): the count of naturals
strictly below the rational len / 3, which is the ceiling of len / 3. -/
def expansionLoopCount (len : ℕ) : ℕ :=
  (len + 2) / 3

/-- The color-expansion loop body: each iteration appends the three
components of the flat color to the accumulating array. -/
def expandFlatColor (c : RGB) : ℕ → List ℚ
  | 0 => []
  | n + 1 => expandFlatColor c n ++ [c.r, c.g, c.b]

/-- The colors array after the buffer-setup pass: an explicitly supplied
per-vertex array is kept unchanged, otherwise the flat color is expanded
once per loop iteration. -/
def setupColors (o : RenderableObject) : List ℚ :=
  match o.colors with
  | some cs => cs
  | none => expandFlatColor o.color (expansionLoopCount o.vertices.length)

/-- The specularColors array after the buffer-setup pass, the same trick
with the flat specular color. -/
def setupSpecularColors (o : RenderableObject) : List ℚ :=
  match o.specularColors with
  | some cs => cs
  | none => expandFlatColor o.specularColor (expansionLoopCount o.vertices.length)

/-- The rotation state mutated by the interaction controller and read by
drawScene. -/
structure SceneState where
  rotationAroundX : ℚ
  rotationAroundY : ℚ
  deriving DecidableEq, Repr

/-- The drag anchor captured by the mousedown handler: the pointer position
at the press and the rotation state at the press. -/
structure DragAnchor where
  xDragStart : ℚ
  yDragStart : ℚ
  xRotationStart : ℚ
  yRotationStart : ℚ
  deriving DecidableEq, Repr

/-- A pointer event with client coordinates. -/
structure PointerEvent where
  clientX : ℚ
  clientY : ℚ
  deriving DecidableEq, Repr

/-- Embedding of the mousedown handler: capture the pointer position and
the current rotations as the drag anchor. -/
def mousedown (s : SceneState) (e : PointerEvent) : DragAnchor :=
  { xDragStart := e.clientX,
    yDragStart := e.clientY,
    xRotationStart := s.rotationAroundX,
    yRotationStart := s.rotationAroundY }

/-- Embedding of rotateScene, the mousemove handler while dragging: set the
two rotations from the anchor and the event, then call drawScene.  The
second component is the draw trace of the redraw over the scene object
list. -/
def rotateScene (a : DragAnchor) (e : PointerEvent) :
    SceneState × List (RenderableObject × DrawModeState) :=
  let s : SceneState :=
    { rotationAroundX := a.xRotationStart - a.yDragStart + e.clientY,
      rotationAroundY := a.yRotationStart - a.xDragStart + e.clientX }
  (s, drawScene objectsToDraw)


theorem drawSceneStep_eq (n i : ℕ) :
    drawSceneStep n i = if 2 * i < n then opaqueMode else translucentMode := by
  have h : ((i : ℚ) < (n : ℚ) / 2) ↔ (2 * i < n) := by
    rw [lt_div_iff₀ (by norm_num : (0 : ℚ) < 2), mul_comm]
    exact_mod_cast Iff.rfl
  simp only [drawSceneStep, h]

theorem opaqueMode_ne_translucentMode : opaqueMode ≠ translucentMode := by
  simp [opaqueMode, translucentMode]

theorem drawScene_getElem? {α : Type} (objects : List α) (i : ℕ) :
    (drawScene objects)[i]? =
      objects[i]?.map (fun a =>
        (a, if 2 * i < objects.length then opaqueMode else translucentMode)) := by
  simp only [drawScene, List.getElem?_map, List.getElem?_enum, drawSceneStep_eq,
    Option.map_map]
  rfl

/-- C1: drawScene visits the objects in list order; the object at index i
is drawn in opaque mode (depth test enabled, blending disabled, alpha
uniform 1.0, sampler on texture unit 0) exactly when i is below half the
list length (2i below n), and otherwise in translucent mode (depth test
disabled, blending enabled, alpha uniform 0.5, sampler on texture unit 1);
hence every opaque-mode draw call precedes every translucent-mode draw
call, and for a 4-object list the first two objects are the opaque group
and the last two the translucent group. -/
theorem drawScene_opaque_split {α : Type} (objects : List α) :
    ((drawScene objects).map Prod.fst = objects) ∧
    (∀ i : ℕ, (drawScene objects)[i]? =
      objects[i]?.map (fun a =>
        (a, if 2 * i < objects.length then opaqueMode else translucentMode))) ∧
    (∀ i j : ℕ, ∀ x y : α × DrawModeState,
      (drawScene objects)[i]? = some x → (drawScene objects)[j]? = some y →
      x.2 = opaqueMode → y.2 = translucentMode → i < j) ∧
    (∀ a b c d : α, drawScene [a, b, c, d] =
      [(a, opaqueMode), (b, opaqueMode), (c, translucentMode), (d, translucentMode)]) := by
  refine ⟨?_, drawScene_getElem? objects, ?_, ?_⟩
  · simp [drawScene, List.map_map, Function.comp_def, List.enum_map_snd]
  · intro i j x y hi hj hx hy
    rw [drawScene_getElem?] at hi hj
    rcases Option.map_eq_some'.mp hi with ⟨a, ha, rfl⟩
    rcases Option.map_eq_some'.mp hj with ⟨b, hb, rfl⟩
    simp only at hx hy
    by_cases h1 : 2 * i < objects.length
    · by_cases h2 : 2 * j < objects.length
      · rw [if_pos h2] at hy
        exact absurd hy opaqueMode_ne_translucentMode
      · have hjlen := List.getElem?_eq_some_iff.mp hb
        omega
    · rw [if_neg h1] at hx
      exact absurd hx.symm opaqueMode_ne_translucentMode
  · intro a b c d
    simp [drawScene, List.enum, List.enumFrom, drawSceneStep_eq]

theorem drawScene_opaque_split_witness :
    drawScene [0, 1, 2, 3] =
      [((0 : ℕ), opaqueMode), (1, opaqueMode), (2, translucentMode), (3, translucentMode)] :=
  (drawScene_opaque_split [0, 1, 2, 3]).2.2.2 0 1 2 3

theorem schedulerStep_inv (s : SchedulerState) (e : SchedulerEvent)
    (h : SchedulerInv s) : SchedulerInv (schedulerStep s e) := by
  cases e <;>
    rcases h with ⟨h1, h2⟩ | ⟨h1, h2, h3⟩ <;>
      simp [SchedulerInv, schedulerStep, drawWhenReady, h1, h2] <;>
        first
          | omega
          | (split_ifs <;> simp_all <;> omega)

theorem schedulerRun_inv (events : List SchedulerEvent) (s : SchedulerState)
    (h : SchedulerInv s) : SchedulerInv (schedulerRun s events) := by
  induction events generalizing s with
  | nil => exact h
  | cons e es ih => exact ih (schedulerStep s e) (schedulerStep_inv s e h)

theorem schedulerStep_readyTexture (s : SchedulerState) (e : SchedulerEvent) :
    (schedulerStep s e).readyTexture =
      s.readyTexture + (if e = SchedulerEvent.textureLoaded then 1 else 0) := by
  cases e <;> simp [schedulerStep, drawWhenReady] <;> split_ifs <;> rfl

theorem schedulerRun_readyTexture (events : List SchedulerEvent) (s : SchedulerState) :
    (schedulerRun s events).readyTexture =
      s.readyTexture + events.count SchedulerEvent.textureLoaded := by
  induction events generalizing s with
  | nil => simp [schedulerRun]
  | cons e es ih =>
    have h := schedulerStep_readyTexture s e
    cases e <;>
      simp [schedulerRun, List.count_cons] at * <;>
        rw [ih] <;> omega

/-- C2: the startup scheduler never calls the frame renderer before both
texture loads have brought the ready counter to 2.  An invocation of
drawWhenReady with the counter below 2 draws nothing and stays scheduled;
an invocation with the counter equal to 2 draws exactly one frame and does
not reschedule.  Along any startup run, at most one frame is drawn, a
callback stays scheduled exactly as long as no frame has been drawn, and a
drawn frame implies at least two texture-load completions occurred. -/
theorem drawWhenReady_gate :
    (∀ s : SchedulerState, s.readyTexture < 2 → drawWhenReady s = s) ∧
    (∀ s : SchedulerState, s.readyTexture = 2 →
      drawWhenReady s =
        { s with framesDrawn := s.framesDrawn + 1, pending := false }) ∧
    (∀ events : List SchedulerEvent,
      (schedulerRun initialSchedulerState events).framesDrawn ≤ 1 ∧
      ((schedulerRun initialSchedulerState events).pending = true ↔
        (schedulerRun initialSchedulerState events).framesDrawn = 0) ∧
      (1 ≤ (schedulerRun initialSchedulerState events).framesDrawn →
        2 ≤ events.count SchedulerEvent.textureLoaded)) := by
  refine ⟨?_, ?_, ?_⟩
  · intro s h
    simp [drawWhenReady]
    omega
  · intro s h
    simp [drawWhenReady, h]
  · intro events
    have hinv : SchedulerInv (schedulerRun initialSchedulerState events) :=
      schedulerRun_inv events initialSchedulerState (Or.inl ⟨rfl, rfl⟩)
    have hready := schedulerRun_readyTexture events initialSchedulerState
    rw [show initialSchedulerState.readyTexture = 0 from rfl] at hready
    rcases hinv with ⟨h1, h2⟩ | ⟨h1, h2, h3⟩
    · exact ⟨by omega, by simp [h1, h2], by omega⟩
    · exact ⟨by omega, by simp [h1, h2], by omega⟩

theorem drawWhenReady_gate_witness :
    drawWhenReady { readyTexture := 1, pending := true, framesDrawn := 0 } =
      { readyTexture := 1, pending := true, framesDrawn := 0 } ∧
    drawWhenReady { readyTexture := 2, pending := true, framesDrawn := 0 } =
      { readyTexture := 2, pending := false, framesDrawn := 1 } ∧
    (schedulerRun initialSchedulerState
      [SchedulerEvent.textureLoaded, SchedulerEvent.animationFrame,
       SchedulerEvent.textureLoaded, SchedulerEvent.animationFrame]).framesDrawn ≤ 1 :=
  ⟨drawWhenReady_gate.1 _ (by decide),
   drawWhenReady_gate.2.1 _ rfl,
   (drawWhenReady_gate.2.2 _).1⟩

/-- C3: during a drag, every pointer move sets rotationAroundX to the
anchored base X rotation minus the anchor pointer Y plus the event pointer
Y, and rotationAroundY to the anchored base Y rotation minus the anchor
pointer X plus the event pointer X, and then redraws the scene; starting
from rotationAroundX = 10 with pointer-down at (100,100) and pointer-move
to (100,130), rotationAroundX becomes 40 and rotationAroundY is
unchanged. -/
theorem rotateScene_spec :
    (∀ (a : DragAnchor) (e : PointerEvent),
      (rotateScene a e).1.rotationAroundX = a.xRotationStart - a.yDragStart + e.clientY ∧
      (rotateScene a e).1.rotationAroundY = a.yRotationStart - a.xDragStart + e.clientX ∧
      (rotateScene a e).2 = drawScene objectsToDraw) ∧
    (∀ s : SceneState, s.rotationAroundX = 10 →
      (rotateScene (mousedown s { clientX := 100, clientY := 100 })
          { clientX := 100, clientY := 130 }).1.rotationAroundX = 40 ∧
      (rotateScene (mousedown s { clientX := 100, clientY := 100 })
          { clientX := 100, clientY := 130 }).1.rotationAroundY = s.rotationAroundY) := by
  refine ⟨fun a e => ⟨rfl, rfl, rfl⟩, fun s h => ⟨?_, ?_⟩⟩
  · simp [rotateScene, mousedown, h]
    norm_num
  · simp [rotateScene, mousedown]

theorem rotateScene_spec_witness :
    ({ rotationAroundX := 10, rotationAroundY := 7 } : SceneState).rotationAroundX = 10 ∧
    (rotateScene (mousedown { rotationAroundX := 10, rotationAroundY := 7 }
        { clientX := 100, clientY := 100 }) { clientX := 100, clientY := 130 }).1.rotationAroundX = 40 :=
  ⟨rfl, (rotateScene_spec.2 { rotationAroundX := 10, rotationAroundY := 7 } rfl).1⟩

/-- C4 (amended): for every non-degenerate box, the orthographic matrix
maps the view-space point (left, bottom, -near) to the clip-space corner
(-1,-1,-1) and (right, top, -far) to (1,1,1); view space is right-handed,
so the conventional sign flip on the z scale term negates the z input
relative to the near and far parameters. -/
theorem getOrthoMatrix_maps_box_corners (left right bottom top zNear zFar : ℚ)
    (h1 : right ≠ left) (h2 : top ≠ bottom) (h3 : zFar ≠ zNear) :
    applyHomogeneous (getOrthoMatrix left right bottom top zNear zFar)
        left bottom (-zNear) = (-1, -1, -1, 1) ∧
    applyHomogeneous (getOrthoMatrix left right bottom top zNear zFar)
        right top (-zFar) = (1, 1, 1, 1) := by
  have hw : right - left ≠ 0 := sub_ne_zero.mpr h1
  have hh : top - bottom ≠ 0 := sub_ne_zero.mpr h2
  have hd : zFar - zNear ≠ 0 := sub_ne_zero.mpr h3
  simp only [getOrthoMatrix, applyHomogeneous, Prod.mk.injEq]
  refine ⟨⟨?_, ?_, ?_, ?_⟩, ⟨?_, ?_, ?_, ?_⟩⟩ <;> field_simp <;> ring

theorem getOrthoMatrix_maps_box_corners_witness :
    (2 : ℚ) ≠ 0 ∧
    applyHomogeneous (getOrthoMatrix 0 2 0 2 1 3) 0 0 (-1) = (-1, -1, -1, 1) :=
  ⟨by norm_num,
   (getOrthoMatrix_maps_box_corners 0 2 0 2 1 3
     (by norm_num) (by norm_num) (by norm_num)).1⟩

/-- C4 counterexample: for the box with left 0, right 2, bottom 0, top 2,
near 1, far 3, the matrix sends the point (left, bottom, near) = (0,0,1) to
(-1,-1,-3,1) and not to the corner (-1,-1,-1): the z scale sign flip means
the near plane sits at z = -near, so the claim fails as stated. -/
theorem getOrthoMatrix_near_corner_counterexample :
    applyHomogeneous (getOrthoMatrix 0 2 0 2 1 3) 0 0 1 ≠ (-1, -1, -1, 1) := by
  norm_num [getOrthoMatrix, applyHomogeneous]

/-- C5: with angle 0 the rotation matrix collapses to the identity matrix
for every non-zero axis (exactly over the reals: sin 0 = 0 and
cos 0 = 1 make every Rodrigues term vanish or become 1). -/
theorem getRotationMatrix_zero_angle (x y z : ℝ) (h : ¬(x = 0 ∧ y = 0 ∧ z = 0)) :
    getRotationMatrix 0 x y z = identityMatrix4 := by
  simp [getRotationMatrix, identityMatrix4]

theorem getRotationMatrix_zero_angle_witness :
    ¬((1 : ℝ) = 0 ∧ (0 : ℝ) = 0 ∧ (0 : ℝ) = 0) ∧
    getRotationMatrix 0 1 0 0 = identityMatrix4 :=
  ⟨by norm_num, getRotationMatrix_zero_angle 1 0 0 (by norm_num)⟩

/-- C6: for the axis (1,0,0) the rotation matrix fixes the X axis (first
column (1,0,0,0), first row of the 3x3 block (1,0,0)) and its Y/Z block is
the standard planar rotation by the angle, in column-major layout: the
entries at indices 5, 6, 9, 10 are cos, sin, -sin, cos of the angle (the
angle is given in degrees and converted to radians inside). -/
theorem getRotationMatrix_xAxis (angle : ℝ) :
    getRotationMatrix angle 1 0 0 =
      [1, 0, 0, 0,
       0, Real.cos (angle * Real.pi / 180), Real.sin (angle * Real.pi / 180), 0,
       0, -Real.sin (angle * Real.pi / 180), Real.cos (angle * Real.pi / 180), 0,
       0, 0, 0, 1] := by
  simp [getRotationMatrix]

theorem getRotationMatrix_xAxis_witness :
    getRotationMatrix 0 1 0 0 =
      [1, 0, 0, 0,
       0, Real.cos (0 * Real.pi / 180), Real.sin (0 * Real.pi / 180), 0,
       0, -Real.sin (0 * Real.pi / 180), Real.cos (0 * Real.pi / 180), 0,
       0, 0, 0, 1] :=
  getRotationMatrix_xAxis 0

/-- C7: the axis is normalized internally, so scaling a non-zero axis by
any positive factor leaves the rotation matrix unchanged. -/
theorem getRotationMatrix_axis_scale (angle x y z k : ℝ) (hk : 0 < k)
    (h : ¬(x = 0 ∧ y = 0 ∧ z = 0)) :
    getRotationMatrix angle (k * x) (k * y) (k * z) = getRotationMatrix angle x y z := by
  have hk0 : k ≠ 0 := ne_of_gt hk
  have hsq : Real.sqrt ((k * x) * (k * x) + (k * y) * (k * y) + (k * z) * (k * z))
      = k * Real.sqrt ((x * x) + (y * y) + (z * z)) := by
    rw [show (k * x) * (k * x) + (k * y) * (k * y) + (k * z) * (k * z)
        = (k ^ 2) * ((x * x) + (y * y) + (z * z)) by ring]
    rw [Real.sqrt_mul (sq_nonneg k), Real.sqrt_sq hk.le]
  simp only [getRotationMatrix, hsq, mul_div_mul_left _ _ hk0]

theorem getRotationMatrix_axis_scale_witness :
    (0 : ℝ) < 2 ∧ ¬((1 : ℝ) = 0 ∧ (0 : ℝ) = 0 ∧ (0 : ℝ) = 0) ∧
    getRotationMatrix 90 (2 * 1) (2 * 0) (2 * 0) = getRotationMatrix 90 1 0 0 :=
  ⟨by norm_num, by norm_num,
   getRotationMatrix_axis_scale 90 1 0 0 2 (by norm_num) (by norm_num)⟩

theorem goldObject_vertices_length : goldObject.vertices.length = 90 := by decide

theorem waterObject_vertices_length : waterObject.vertices.length = 90 := by decide

/-- C8: each renderable object of the scene carries the fixed
texture-coordinate triple (0,0),(1,0),(0,1) for each triangle of its
geometry: its textureCoordinates array is the six-float pattern
0,0,1,0,0,1 repeated once per triangle (the raw vertex array holds nine
floats per triangle). -/
theorem textureCoordinates_per_triangle :
    ∀ o ∈ objectsToDraw,
      o.textureCoordinates =
        List.flatten (List.replicate (o.vertices.length / 9) [0, 0, 1, 0, 0, 1]) := by
  intro o ho
  simp only [objectsToDraw, List.mem_cons, List.not_mem_nil, or_false] at ho
  rcases ho with rfl | rfl
  · rw [goldObject_vertices_length]
    rfl
  · rw [waterObject_vertices_length]
    rfl

theorem textureCoordinates_per_triangle_witness :
    goldObject ∈ objectsToDraw ∧
    goldObject.textureCoordinates =
      List.flatten (List.replicate (goldObject.vertices.length / 9) [0, 0, 1, 0, 0, 1]) :=
  ⟨by simp [objectsToDraw],
   textureCoordinates_per_triangle goldObject (by simp [objectsToDraw])⟩

theorem expandFlatColor_eq (c : RGB) (n : ℕ) :
    expandFlatColor c n = List.flatten (List.replicate n [c.r, c.g, c.b]) := by
  induction n with
  | zero => rfl
  | succ m ih =>
    rw [expandFlatColor, ih, List.replicate_succ', List.flatten_append]
    simp

theorem expansionLoopCount_of_dvd (len : ℕ) (h : 3 ∣ len) :
    expansionLoopCount len = len / 3 := by
  unfold expansionLoopCount
  omega

/-- C9: the buffer-setup pass expands a missing per-vertex colors array
into the single flat color repeated once per vertex (vertices.length / 3
copies of the RGB triple), and likewise for the specular color; an
explicitly supplied per-vertex array is kept unchanged.  Both objects the
pass actually processes have no explicit arrays and a vertex array length
divisible by 3. -/
theorem bufferSetup_color_expansion :
    (∀ o : RenderableObject, o.colors = none → 3 ∣ o.vertices.length →
      setupColors o =
        List.flatten (List.replicate (o.vertices.length / 3)
          [o.color.r, o.color.g, o.color.b])) ∧
    (∀ o : RenderableObject, o.specularColors = none → 3 ∣ o.vertices.length →
      setupSpecularColors o =
        List.flatten (List.replicate (o.vertices.length / 3)
          [o.specularColor.r, o.specularColor.g, o.specularColor.b])) ∧
    (∀ (o : RenderableObject) (cs : List ℚ), o.colors = some cs → setupColors o = cs) ∧
    (∀ (o : RenderableObject) (cs : List ℚ),
      o.specularColors = some cs → setupSpecularColors o = cs) ∧
    (∀ o ∈ objectsToDraw,
      o.colors = none ∧ o.specularColors = none ∧ 3 ∣ o.vertices.length) := by
  refine ⟨?_, ?_, ?_, ?_, ?_⟩
  · intro o hnone hdvd
    rw [setupColors, hnone, expansionLoopCount_of_dvd _ hdvd, expandFlatColor_eq]
  · intro o hnone hdvd
    rw [setupSpecularColors, hnone, expansionLoopCount_of_dvd _ hdvd, expandFlatColor_eq]
  · intro o cs hsome
    rw [setupColors, hsome]
  · intro o cs hsome
    rw [setupSpecularColors, hsome]
  · intro o ho
    simp only [objectsToDraw, List.mem_cons, List.not_mem_nil, or_false] at ho
    rcases ho with rfl | rfl
    · exact ⟨rfl, rfl, by rw [goldObject_vertices_length]; decide⟩
    · exact ⟨rfl, rfl, by rw [waterObject_vertices_length]; decide⟩

theorem bufferSetup_color_expansion_witness :
    goldObject.colors = none ∧ (3 : ℕ) ∣ goldObject.vertices.length ∧
    setupColors goldObject =
      List.flatten (List.replicate (goldObject.vertices.length / 3)
        [goldObject.color.r, goldObject.color.g, goldObject.color.b]) :=
  ⟨rfl, by rw [goldObject_vertices_length]; decide,
   bufferSetup_color_expansion.1 goldObject rfl (by rw [goldObject_vertices_length]; decide)⟩

/-- C10: the scene splits one icosahedron into two complementary halves by
triangle position parity: the gold mesh keeps the triangles at odd
positions and the water mesh those at even positions, the two triangle
lists are disjoint and together cover every icosahedron triangle, and each
mesh has 10 of the 20 triangles, hence 90 raw vertex floats (30 vertices)
per object, matching its 60-element texture-coordinate array. -/
theorem icosahedron_parity_split :
    icosahedron.indices.length = 20 ∧
    goldMesh.indices.length = 10 ∧ waterMesh.indices.length = 10 ∧
    (∀ i : ℕ, i < 10 → goldMesh.indices[i]? = icosahedron.indices[2 * i + 1]?) ∧
    (∀ i : ℕ, i < 10 → waterMesh.indices[i]? = icosahedron.indices[2 * i]?) ∧
    (∀ t ∈ goldMesh.indices, t ∉ waterMesh.indices) ∧
    (∀ t ∈ icosahedron.indices, t ∈ goldMesh.indices ∨ t ∈ waterMesh.indices) ∧
    goldObject.vertices.length / 3 = 30 ∧ waterObject.vertices.length / 3 = 30 ∧
    goldObject.textureCoordinates.length = 60 ∧
    waterObject.textureCoordinates.length = 60 := by
  refine ⟨by decide, by decide, by decide, by decide, by decide, by decide, by decide,
    by decide, by decide, by decide, by decide⟩

theorem icosahedron_parity_split_witness :
    (0 : ℕ) < 10 ∧ goldMesh.indices[0]? = icosahedron.indices[1]? :=
  ⟨by decide, icosahedron_parity_split.2.2.2.1 0 (by decide)⟩
